import Mathlib

/-!
Verification of the `opentelemetry-ext-celery` instrumentor
(`src/ext/opentelemetry-ext-celery/src/opentelemetry/ext/celery/__init__.py`).

The module installs six handlers on Celery lifecycle signals and converts
them into tracing spans.  We embed the handlers as pure functions on an
explicit trace state.  The helper module `opentelemetry.ext.celery.utils`
(signal field retrieval, the span association table, context attributes) is
part of the repository but its file is not available, so those helpers are
modelled from the spec (notably spec.md §3: the table is "keyed by (task
identity, execution identifier, direction)", with "insert on start/publish,
remove on matching end event").
-/

namespace Celery

/-- Span kinds used by the instrumentor: `trace.SpanKind.CONSUMER` in
`_trace_prerun` and `trace.SpanKind.PRODUCER` in `_trace_before_publish`. -/
inductive SpanKind where
  | consumer
  | producer
deriving DecidableEq, Repr, Inhabited

/-- `opentelemetry.trace.status.StatusCanonicalCode`: the instrumentor only
ever uses `UNKNOWN`. -/
inductive StatusCanonicalCode where
  | UNKNOWN
deriving DecidableEq, Repr, Inhabited

/-- `opentelemetry.trace.status.Status(canonical_code=..., description=...)`. -/
structure Status where
  canonical_code : StatusCanonicalCode
  description : String
deriving DecidableEq, Repr, Inhabited

/-- A Celery task object as the handlers use it: an object identity (tasks
are dictionary keys of the association table), its `name`, and its optional
`throws` tuple of declared exception types (`hasattr(task, "throws")` is
false when `throws = none`; exception types are abstracted to `Nat`). -/
structure Task where
  tid : Nat
  name : String
  throws : Option (List Nat)
deriving DecidableEq, Repr, Inhabited

/-- The `einfo` object of a `task_failure` signal: the class of
`einfo.exception` (abstracted to `Nat`) and the string form `str(einfo)`. -/
structure EInfo where
  excType : Nat
  toStr : String
deriving DecidableEq, Repr, Inhabited

/-- A span: name and kind fixed at `start_span`, plus the mutable attribute
dictionary, the status (`none` until `set_status` is called) and whether the
activation has ended it (`activation.__exit__` with `end_on_exit=True`). -/
structure Span where
  name : String
  kind : SpanKind
  attrs : List (String × String)
  status : Option Status
  ended : Bool
deriving DecidableEq, Repr, Inhabited

/-- Modelled from the spec: the association table of §3 is "keyed by (task
identity, execution identifier, direction)"; `isPublish` is the direction
flag (`is_publish` in the handlers). -/
structure SpanKey where
  taskId : Nat
  execId : String
  isPublish : Bool
deriving DecidableEq, Repr, Inhabited

/-- The whole observable state the handlers act on: the spans created so far
(a span is named by its index), the association table mapping keys to span
indices, and the log messages emitted so far. -/
structure TraceState where
  spans : List Span
  table : List (SpanKey × Nat)
  logs : List String
deriving DecidableEq, Repr, Inhabited

/-- `span.set_attribute k v`: dictionary update, overwriting the existing
entry for `k` or appending a fresh one. -/
def setAttribute : List (String × String) → String → String → List (String × String)
  | [], k, v => [(k, v)]
  | q :: rest, k, v => if q.1 = k then (k, v) :: rest else q :: setAttribute rest k v

/-- Read an attribute back from the attribute dictionary. -/
def attrLookup : List (String × String) → String → Option String
  | [], _ => none
  | q :: rest, k => if q.1 = k then some q.2 else attrLookup rest k

/-- Modelled from the spec: `utils.retrieve_span` — a constant-time lookup
in the association table of §3. -/
def tableLookup : List (SpanKey × Nat) → SpanKey → Option Nat
  | [], _ => none
  | q :: rest, k => if q.1 = k then some q.2 else tableLookup rest k

/-- Modelled from the spec: `utils.attach_span` — "insert on start/publish"
into the association table (dictionary assignment: overwrite or append). -/
def tableSet : List (SpanKey × Nat) → SpanKey → Nat → List (SpanKey × Nat)
  | [], k, v => [(k, v)]
  | q :: rest, k, v => if q.1 = k then (k, v) :: rest else q :: tableSet rest k v

/-- Modelled from the spec: `utils.detach_span` — "remove on matching end
event" from the association table. -/
def tableErase : List (SpanKey × Nat) → SpanKey → List (SpanKey × Nat)
  | [], _ => []
  | q :: rest, k => if q.1 = k then tableErase rest k else q :: tableErase rest k

/-- Apply a function to the span at an index (the span the table points to). -/
def updateSpan (s : TraceState) (idx : Nat) (f : Span → Span) : TraceState :=
  { s with spans := s.spans.set idx (f (s.spans.getD idx default)) }

/-- Append a log message (`logger.debug` / `logger.warning`). -/
def logMsg (s : TraceState) (m : String) : TraceState :=
  { s with logs := s.logs ++ [m] }

/-- The payload of one signal delivery, holding the values the `utils`
retrieval helpers extract from the signal's keyword arguments, the `einfo`
object, and the context fields that `utils.set_attributes_from_context`
records (as attribute-name/value pairs) from the signal kwargs and from
`task.request`. -/
structure Payload where
  task : Option Task
  taskId : Option String
  reason : Option String
  einfo : Option EInfo
  ctx : List (String × String)
  requestCtx : List (String × String)
deriving DecidableEq, Repr, Inhabited

/-- Modelled from the spec: `utils.signal_retrieve_task` reads the task
from the signal payload; per spec.md §7 the missing-identifier path "logs
and returns", so on a missing task the helper also yields the log message
it emits (second component). -/
def signal_retrieve_task (p : Payload) : Option Task × List String :=
  match p.task with
  | some t => (some t, [])
  | none => (none, ["unable to retrieve task from signal arguments"])

/-- Modelled from the spec: `utils.signal_retrieve_task_from_sender` reads
the task from the signal's sender; per spec.md §7 it logs on the missing
path (second component). -/
def signal_retrieve_task_from_sender (p : Payload) : Option Task × List String :=
  match p.task with
  | some t => (some t, [])
  | none => (none, ["unable to retrieve task from sender"])

/-- Modelled from the spec: `utils.signal_retrieve_task_id` reads the
execution identifier from the signal payload; per spec.md §7 it logs on the
missing path (second component). -/
def signal_retrieve_task_id (p : Payload) : Option String × List String :=
  match p.taskId with
  | some i => (some i, [])
  | none => (none, ["unable to retrieve task_id from signal arguments"])

/-- Modelled from the spec: `utils.signal_retrieve_task_id_from_message`
reads the execution identifier from the published message headers; per
spec.md §7 it logs on the missing path (second component). -/
def signal_retrieve_task_id_from_message (p : Payload) : Option String × List String :=
  match p.taskId with
  | some i => (some i, [])
  | none => (none, ["unable to retrieve task_id from message headers"])

/-- Modelled from the spec: `utils.signal_retrieve_task_id_from_request`
reads the execution identifier from the retry request; per spec.md §7 it
logs on the missing path (second component). -/
def signal_retrieve_task_id_from_request (p : Payload) : Option String × List String :=
  match p.taskId with
  | some i => (some i, [])
  | none => (none, ["unable to retrieve task_id from request"])

/-- Modelled from the spec: `utils.signal_retrieve_reason` reads the retry
reason from the signal payload (carried here as its string form); per
spec.md §7 it logs on the missing path (second component). -/
def signal_retrieve_reason (p : Payload) : Option String × List String :=
  match p.reason with
  | some r => (some r, [])
  | none => (none, ["unable to retrieve retry reason from signal arguments"])

/-- Modelled from the spec: `utils.set_attributes_from_context` records the
event payload fields as span attributes ("attributes recorded match the
event payload fields", spec.md §8), one `set_attribute` per field. -/
def set_attributes_from_context (attrs : List (String × String))
    (ctx : List (String × String)) : List (String × String) :=
  ctx.foldl (fun a kv => setAttribute a kv.1 kv.2) attrs

/-- Attribute keys used by the handlers (source lines 68-76). -/
def TASK_TAG_KEY : String := "celery.action"

def TASK_APPLY_ASYNC : String := "apply_async"

def TASK_RUN : String := "run"

def TASK_RETRY_REASON_KEY : String := "celery.retry.reason"

def TASK_NAME_KEY : String := "celery.task_name"

def MESSAGE_ID_ATTRIBUTE_NAME : String := "messaging.message_id"

/-- `CeleryInstrumentor._trace_prerun`: on a `task_prerun` signal with task
and task id present, log, start a CONSUMER span named after the task, enter
its activation and attach it under the non-publish key. -/
def _trace_prerun (p : Payload) (s : TraceState) : TraceState :=
  let tr := signal_retrieve_task p
  let ti := signal_retrieve_task_id p
  let s := { s with logs := s.logs ++ (tr.2 ++ ti.2) }
  match tr.1, ti.1 with
  | some task, some task_id =>
    let s := logMsg s ("prerun signal start task_id=" ++ task_id)
    let span : Span :=
      { name := task.name, kind := SpanKind.consumer, attrs := [],
        status := none, ended := false }
    let idx := s.spans.length
    { s with spans := s.spans ++ [span],
             table := tableSet s.table ⟨task.tid, task_id, false⟩ idx }
  | _, _ => s

/-- `CeleryInstrumentor._trace_postrun`: on a `task_postrun` signal with
task and task id present, log, retrieve the attached span (warning if there
is none), set the run attributes and the context attributes, exit the
activation (ending the span) and detach it. -/
def _trace_postrun (p : Payload) (s : TraceState) : TraceState :=
  let tr := signal_retrieve_task p
  let ti := signal_retrieve_task_id p
  let s := { s with logs := s.logs ++ (tr.2 ++ ti.2) }
  match tr.1, ti.1 with
  | some task, some task_id =>
    let s := logMsg s ("postrun signal task_id=" ++ task_id)
    match tableLookup s.table ⟨task.tid, task_id, false⟩ with
    | none => logMsg s ("no existing span found for task_id=" ++ task_id)
    | some idx =>
      let s := updateSpan s idx (fun sp =>
        { sp with attrs := setAttribute sp.attrs TASK_TAG_KEY TASK_RUN })
      let s := updateSpan s idx (fun sp =>
        { sp with attrs := set_attributes_from_context sp.attrs p.ctx })
      let s := updateSpan s idx (fun sp =>
        { sp with attrs := set_attributes_from_context sp.attrs p.requestCtx })
      let s := updateSpan s idx (fun sp =>
        { sp with attrs := setAttribute sp.attrs TASK_NAME_KEY task.name })
      let s := updateSpan s idx (fun sp => { sp with ended := true })
      { s with table := tableErase s.table ⟨task.tid, task_id, false⟩ }
  | _, _ => s

/-- `CeleryInstrumentor._trace_before_publish`: on a `before_task_publish`
signal with task and message id present, start a PRODUCER span named after
the task, set the publish attributes and the context attributes, enter its
activation and attach it under the publish key. -/
def _trace_before_publish (p : Payload) (s : TraceState) : TraceState :=
  let tr := signal_retrieve_task_from_sender p
  let ti := signal_retrieve_task_id_from_message p
  let s := { s with logs := s.logs ++ (tr.2 ++ ti.2) }
  match tr.1, ti.1 with
  | some task, some task_id =>
    let span : Span :=
      { name := task.name, kind := SpanKind.producer, attrs := [],
        status := none, ended := false }
    let span := { span with attrs := setAttribute span.attrs TASK_TAG_KEY TASK_APPLY_ASYNC }
    let span := { span with attrs := setAttribute span.attrs MESSAGE_ID_ATTRIBUTE_NAME task_id }
    let span := { span with attrs := setAttribute span.attrs TASK_NAME_KEY task.name }
    let span := { span with attrs := set_attributes_from_context span.attrs p.ctx }
    let idx := s.spans.length
    { s with spans := s.spans ++ [span],
             table := tableSet s.table ⟨task.tid, task_id, true⟩ idx }
  | _, _ => s

/-- `CeleryInstrumentor._trace_after_publish`: on an `after_task_publish`
signal with task and message id present, retrieve the publish-direction
activation (warning if there is none), exit it (ending the span) and detach
it. -/
def _trace_after_publish (p : Payload) (s : TraceState) : TraceState :=
  let tr := signal_retrieve_task_from_sender p
  let ti := signal_retrieve_task_id_from_message p
  let s := { s with logs := s.logs ++ (tr.2 ++ ti.2) }
  match tr.1, ti.1 with
  | some task, some task_id =>
    match tableLookup s.table ⟨task.tid, task_id, true⟩ with
    | none => logMsg s ("no existing span found for task_id=" ++ task_id)
    | some idx =>
      let s := updateSpan s idx (fun sp => { sp with ended := true })
      { s with table := tableErase s.table ⟨task.tid, task_id, true⟩ }
  | _, _ => s

/-- `CeleryInstrumentor._trace_failure`: on a `task_failure` signal with
task and task id present and a span attached, if `einfo` is present and its
exception is not in the task's `throws` tuple, set an UNKNOWN status whose
description is `str(einfo)`; otherwise return with no change. -/
def _trace_failure (p : Payload) (s : TraceState) : TraceState :=
  let tr := signal_retrieve_task_from_sender p
  let ti := signal_retrieve_task_id p
  let s := { s with logs := s.logs ++ (tr.2 ++ ti.2) }
  match tr.1, ti.1 with
  | some task, some task_id =>
    match tableLookup s.table ⟨task.tid, task_id, false⟩ with
    | none => s
    | some idx =>
      match p.einfo with
      | none => s
      | some ex =>
        match task.throws with
        | some throwsList =>
          if ex.excType ∈ throwsList then s
          else
            updateSpan s idx (fun sp =>
              { sp with status := some ⟨StatusCanonicalCode.UNKNOWN, ex.toStr⟩ })
        | none =>
          updateSpan s idx (fun sp =>
            { sp with status := some ⟨StatusCanonicalCode.UNKNOWN, ex.toStr⟩ })
  | _, _ => s

/-- `CeleryInstrumentor._trace_retry`: on a `task_retry` signal with task,
request id and reason present and a span attached, record the retry reason
attribute (as `str(reason)`); the span is neither ended nor detached. -/
def _trace_retry (p : Payload) (s : TraceState) : TraceState :=
  let tr := signal_retrieve_task_from_sender p
  let ti := signal_retrieve_task_id_from_request p
  let rr := signal_retrieve_reason p
  let s := { s with logs := s.logs ++ (tr.2 ++ (ti.2 ++ rr.2)) }
  match tr.1, ti.1, rr.1 with
  | some task, some task_id, some reason =>
    match tableLookup s.table ⟨task.tid, task_id, false⟩ with
    | none => s
    | some idx =>
      updateSpan s idx (fun sp =>
        { sp with attrs := setAttribute sp.attrs TASK_RETRY_REASON_KEY reason })
  | _, _, _ => s

/-- The six Celery signals the instrumentor touches. -/
inductive SignalName where
  | task_prerun
  | task_postrun
  | before_task_publish
  | after_task_publish
  | task_failure
  | task_retry
deriving DecidableEq, Repr, Inhabited

/-- The six handler methods of `CeleryInstrumentor`. -/
inductive HandlerName where
  | trace_prerun
  | trace_postrun
  | trace_before_publish
  | trace_after_publish
  | trace_failure
  | trace_retry
deriving DecidableEq, Repr, Inhabited

/-- The host signal registry: the list of (signal, receiver) connections. -/
abbrev Registry : Type := List (SignalName × HandlerName)

/-- `signal.connect(receiver, weak=False)`: register a receiver. -/
def connect (r : Registry) (sig : SignalName) (h : HandlerName) : Registry :=
  r ++ [(sig, h)]

/-- `signal.disconnect(receiver)`: deregister a receiver. -/
def disconnect (r : Registry) (sig : SignalName) (h : HandlerName) : Registry :=
  r.filter (fun q => ¬(q.1 = sig ∧ q.2 = h))

/-- `CeleryInstrumentor._instrument`: connect the six handlers. -/
def _instrument (r : Registry) : Registry :=
  let r := connect r SignalName.task_prerun HandlerName.trace_prerun
  let r := connect r SignalName.task_postrun HandlerName.trace_postrun
  let r := connect r SignalName.before_task_publish HandlerName.trace_before_publish
  let r := connect r SignalName.after_task_publish HandlerName.trace_after_publish
  let r := connect r SignalName.task_failure HandlerName.trace_failure
  let r := connect r SignalName.task_retry HandlerName.trace_retry
  r

/-- `CeleryInstrumentor._uninstrument`: disconnect the six handlers. -/
def _uninstrument (r : Registry) : Registry :=
  let r := disconnect r SignalName.task_prerun HandlerName.trace_prerun
  let r := disconnect r SignalName.task_postrun HandlerName.trace_postrun
  let r := disconnect r SignalName.before_task_publish HandlerName.trace_before_publish
  let r := disconnect r SignalName.after_task_publish HandlerName.trace_after_publish
  let r := disconnect r SignalName.task_failure HandlerName.trace_failure
  let r := disconnect r SignalName.task_retry HandlerName.trace_retry
  r

/-- The span record `_trace_prerun` creates. -/
def prerunSpan (t : Task) : Span :=
  ⟨t.name, SpanKind.consumer, [], none, false⟩

/-- The span record `_trace_before_publish` creates, with its publish-time
attributes already applied. -/
def publishSpan (p : Payload) (t : Task) (i : String) : Span :=
  ⟨t.name, SpanKind.producer,
    set_attributes_from_context
      (setAttribute (setAttribute (setAttribute [] TASK_TAG_KEY TASK_APPLY_ASYNC)
        MESSAGE_ID_ATTRIBUTE_NAME i) TASK_NAME_KEY t.name) p.ctx,
    none, false⟩

/-- The transformation `_trace_postrun` applies to the retrieved span. -/
def postrunUpdate (p : Payload) (t : Task) (sp : Span) : Span :=
  ⟨sp.name, sp.kind,
    setAttribute (set_attributes_from_context
      (set_attributes_from_context (setAttribute sp.attrs TASK_TAG_KEY TASK_RUN)
        p.ctx) p.requestCtx) TASK_NAME_KEY t.name,
    sp.status, true⟩


/-! ### Concrete fixtures used by witnesses and counterexamples -/

/-- A task whose `throws` tuple allows exception type `7`. -/
def taskW : Task := ⟨0, "add", some [7]⟩

/-- A state with one open run-direction span attached for `taskW` / `"id-1"`. -/
def stateW : TraceState :=
  ⟨[⟨"add", SpanKind.consumer, [], none, false⟩], [(⟨0, "id-1", false⟩, 0)], []⟩

/-- A failure payload whose exception type `5` is not in `taskW.throws`. -/
def payloadW : Payload :=
  ⟨some taskW, some "id-1", some "Retry in 3s", some ⟨5, "ValueError: boom"⟩,
    [("celery.hostname", "worker-1")], [("celery.eta", "soon")]⟩

/-- A failure payload whose exception type `7` is in `taskW.throws`. -/
def payloadThrown : Payload :=
  ⟨some taskW, some "id-1", none, some ⟨7, "Expected: skip"⟩, [], []⟩

/-- A payload carrying task and id but no `einfo`. -/
def payloadNoEinfo : Payload := ⟨some taskW, some "id-1", none, none, [], []⟩

/-- A payload with the task missing. -/
def payloadNoTask : Payload := ⟨none, some "id-9", none, none, [], []⟩

/-- A payload with task and id present and empty contexts. -/
def payloadFresh : Payload := ⟨some taskW, some "id-2", none, none, [], []⟩

/-- The empty trace state. -/
def stateEmpty : TraceState := ⟨[], [], []⟩


/-! ### Helper lemmas about the association table, attributes and spans -/

theorem tableLookup_tableSet_self (t : List (SpanKey × Nat)) (k : SpanKey) (v : Nat) :
    tableLookup (tableSet t k v) k = some v := by
  induction t with
  | nil => simp [tableSet, tableLookup]
  | cons q rest ih =>
    by_cases h : q.1 = k
    · simp [tableSet, tableLookup, h]
    · simp [tableSet, tableLookup, h, ih]

theorem tableLookup_tableSet_ne (t : List (SpanKey × Nat)) (k k' : SpanKey) (v : Nat)
    (h : k' ≠ k) : tableLookup (tableSet t k v) k' = tableLookup t k' := by
  have h1 : ¬(k = k') := fun hh => h hh.symm
  have h2 : ¬(k' = k) := h
  induction t with
  | nil => simp [tableSet, tableLookup, h1]
  | cons q rest ih =>
    by_cases hq : q.1 = k
    · simp [tableSet, tableLookup, hq, h1]
    · by_cases hq' : q.1 = k'
      · simp [tableSet, tableLookup, hq, hq', h2]
      · simp [tableSet, tableLookup, hq, hq', ih]

theorem tableLookup_tableErase_self (t : List (SpanKey × Nat)) (k : SpanKey) :
    tableLookup (tableErase t k) k = none := by
  induction t with
  | nil => simp [tableErase, tableLookup]
  | cons q rest ih =>
    by_cases h : q.1 = k
    · simp [tableErase, h, ih]
    · simp [tableErase, tableLookup, h, ih]

theorem tableLookup_tableErase_ne (t : List (SpanKey × Nat)) (k k' : SpanKey)
    (h : k' ≠ k) : tableLookup (tableErase t k) k' = tableLookup t k' := by
  have h1 : ¬(k = k') := fun hh => h hh.symm
  have h2 : ¬(k' = k) := h
  induction t with
  | nil => simp [tableErase, tableLookup]
  | cons q rest ih =>
    by_cases hq : q.1 = k
    · simp [tableErase, tableLookup, hq, ih, h1]
    · by_cases hq' : q.1 = k'
      · simp [tableErase, tableLookup, hq, hq', h2]
      · simp [tableErase, tableLookup, hq, hq', ih]

theorem attrLookup_setAttribute_self (a : List (String × String)) (k v : String) :
    attrLookup (setAttribute a k v) k = some v := by
  induction a with
  | nil => simp [setAttribute, attrLookup]
  | cons q rest ih =>
    by_cases h : q.1 = k
    · simp [setAttribute, attrLookup, h]
    · simp [setAttribute, attrLookup, h, ih]

theorem attrLookup_setAttribute_ne (a : List (String × String)) (k k' v : String)
    (h : k' ≠ k) : attrLookup (setAttribute a k v) k' = attrLookup a k' := by
  have h1 : ¬(k = k') := fun hh => h hh.symm
  have h2 : ¬(k' = k) := h
  induction a with
  | nil => simp [setAttribute, attrLookup, h1]
  | cons q rest ih =>
    by_cases hq : q.1 = k
    · simp [setAttribute, attrLookup, hq, h1]
    · by_cases hq' : q.1 = k'
      · simp [setAttribute, attrLookup, hq, hq', h2]
      · simp [setAttribute, attrLookup, hq, hq', ih]

theorem set_attributes_from_context_cons (a : List (String × String))
    (q : String × String) (rest : List (String × String)) :
    set_attributes_from_context a (q :: rest) =
      set_attributes_from_context (setAttribute a q.1 q.2) rest := by
  simp [set_attributes_from_context]

theorem attrLookup_set_attributes_from_context (a ctx : List (String × String))
    (k : String) (h : k ∉ ctx.map Prod.fst) :
    attrLookup (set_attributes_from_context a ctx) k = attrLookup a k := by
  induction ctx generalizing a with
  | nil => rfl
  | cons q rest ih =>
    simp only [List.map_cons, List.mem_cons] at h
    push_neg at h
    rw [set_attributes_from_context_cons, ih _ h.2,
      attrLookup_setAttribute_ne _ _ _ _ h.1]

theorem updateSpan_table (s : TraceState) (idx : Nat) (f : Span → Span) :
    (updateSpan s idx f).table = s.table := rfl

theorem updateSpan_logs (s : TraceState) (idx : Nat) (f : Span → Span) :
    (updateSpan s idx f).logs = s.logs := rfl

theorem updateSpan_spans_length (s : TraceState) (idx : Nat) (f : Span → Span) :
    (updateSpan s idx f).spans.length = s.spans.length := by
  simp [updateSpan]

theorem updateSpan_getElem_ne (s : TraceState) (idx : Nat) (f : Span → Span)
    (j : Nat) (h : j ≠ idx) : (updateSpan s idx f).spans[j]? = s.spans[j]? := by
  simp [updateSpan, List.getElem?_set_ne (fun hh : idx = j => h hh.symm)]

theorem updateSpan_getElem_self (s : TraceState) (idx : Nat) (f : Span → Span)
    (hidx : idx < s.spans.length) :
    (updateSpan s idx f).spans[idx]? = some (f (s.spans.getD idx default)) := by
  simp [updateSpan, List.getElem?_set_self hidx]

theorem updateSpan_oob (s : TraceState) (idx : Nat) (f : Span → Span)
    (hidx : s.spans.length ≤ idx) : updateSpan s idx f = s := by
  simp [updateSpan, List.set_eq_of_length_le hidx]

theorem updateSpan_updateSpan (s : TraceState) (idx : Nat) (f g : Span → Span) :
    updateSpan (updateSpan s idx f) idx g = updateSpan s idx (fun sp => g (f sp)) := by
  by_cases hidx : idx < s.spans.length
  · have h1 : (s.spans.set idx (f (s.spans.getD idx default))).getD idx default =
        f (s.spans.getD idx default) := by
      rw [List.getD_eq_getElem?_getD, List.getElem?_set_self (by simpa using hidx)]
      rfl
    simp only [updateSpan] at h1 ⊢
    rw [h1, List.set_set]
  · have hle : s.spans.length ≤ idx := Nat.le_of_not_lt hidx
    rw [updateSpan_oob s idx f hle, updateSpan_oob s idx g hle,
      updateSpan_oob s idx _ hle]

theorem updateSpan_shape (s : TraceState) (idx : Nat) (f : Span → Span)
    (hf : ∀ sp, (f sp).name = sp.name ∧ (f sp).kind = sp.kind ∧
      (f sp).attrs = sp.attrs ∧ (f sp).ended = sp.ended) (j : Nat) :
    ((updateSpan s idx f).spans[j]?).map (fun sp => (sp.name, sp.kind, sp.attrs, sp.ended)) =
      (s.spans[j]?).map (fun sp => (sp.name, sp.kind, sp.attrs, sp.ended)) := by
  by_cases hj : j = idx
  · subst hj
    by_cases hidx : j < s.spans.length
    · rw [updateSpan_getElem_self s j f hidx]
      rw [List.getD_eq_getElem?_getD, List.getElem?_eq_getElem hidx]
      simp [hf (s.spans[j])]
    · have hle : s.spans.length ≤ j := Nat.le_of_not_lt hidx
      rw [updateSpan_oob s j f hle]
  · rw [updateSpan_getElem_ne s idx f j hj]

theorem updateSpan_ended_map (s : TraceState) (idx : Nat) (f : Span → Span)
    (hf : ∀ sp, (f sp).ended = sp.ended) (j : Nat) :
    ((updateSpan s idx f).spans[j]?).map Span.ended = (s.spans[j]?).map Span.ended := by
  by_cases hj : j = idx
  · subst hj
    by_cases hidx : j < s.spans.length
    · rw [updateSpan_getElem_self s j f hidx]
      rw [List.getD_eq_getElem?_getD, List.getElem?_eq_getElem hidx]
      simp [hf (s.spans[j])]
    · have hle : s.spans.length ≤ j := Nat.le_of_not_lt hidx
      rw [updateSpan_oob s j f hle]
  · rw [updateSpan_getElem_ne s idx f j hj]

/-! ### Equation lemmas for the handlers under the usual hypotheses -/

theorem trace_prerun_eq (p : Payload) (s : TraceState) (t : Task) (i : String)
    (hp : p.task = some t) (hi : p.taskId = some i) :
    _trace_prerun p s =
      ⟨s.spans ++ [prerunSpan t],
        tableSet s.table ⟨t.tid, i, false⟩ s.spans.length,
        s.logs ++ ["prerun signal start task_id=" ++ i]⟩ := by
  simp [_trace_prerun, signal_retrieve_task, signal_retrieve_task_id, hp, hi, logMsg,
    prerunSpan]

theorem trace_before_publish_eq (p : Payload) (s : TraceState) (t : Task) (i : String)
    (hp : p.task = some t) (hi : p.taskId = some i) :
    _trace_before_publish p s =
      ⟨s.spans ++ [publishSpan p t i],
        tableSet s.table ⟨t.tid, i, true⟩ s.spans.length,
        s.logs⟩ := by
  simp [_trace_before_publish, signal_retrieve_task_from_sender,
    signal_retrieve_task_id_from_message, hp, hi, publishSpan]

theorem trace_postrun_found_eq (p : Payload) (s : TraceState) (t : Task) (i : String)
    (idx : Nat) (hp : p.task = some t) (hi : p.taskId = some i)
    (hs : tableLookup s.table ⟨t.tid, i, false⟩ = some idx) :
    _trace_postrun p s =
      { updateSpan (logMsg s ("postrun signal task_id=" ++ i)) idx (postrunUpdate p t) with
        table := tableErase s.table ⟨t.tid, i, false⟩ } := by
  simp only [_trace_postrun, signal_retrieve_task, signal_retrieve_task_id, hp, hi,
    logMsg, List.nil_append, List.append_nil]
  simp only [hs]
  rw [updateSpan_updateSpan, updateSpan_updateSpan, updateSpan_updateSpan,
    updateSpan_updateSpan]
  simp [updateSpan, postrunUpdate]

theorem trace_postrun_notfound_eq (p : Payload) (s : TraceState) (t : Task) (i : String)
    (hp : p.task = some t) (hi : p.taskId = some i)
    (hs : tableLookup s.table ⟨t.tid, i, false⟩ = none) :
    _trace_postrun p s =
      { s with logs := s.logs ++ ["postrun signal task_id=" ++ i,
        "no existing span found for task_id=" ++ i] } := by
  simp only [_trace_postrun, signal_retrieve_task, signal_retrieve_task_id, hp, hi, logMsg]
  simp [hs]

theorem trace_after_publish_found_eq (p : Payload) (s : TraceState) (t : Task) (i : String)
    (idx : Nat) (hp : p.task = some t) (hi : p.taskId = some i)
    (hs : tableLookup s.table ⟨t.tid, i, true⟩ = some idx) :
    _trace_after_publish p s =
      { updateSpan s idx (fun sp => { sp with ended := true }) with
        table := tableErase s.table ⟨t.tid, i, true⟩ } := by
  simp only [_trace_after_publish, signal_retrieve_task_from_sender,
    signal_retrieve_task_id_from_message, hp, hi]
  simp [hs, updateSpan]

theorem trace_after_publish_notfound_eq (p : Payload) (s : TraceState) (t : Task)
    (i : String) (hp : p.task = some t) (hi : p.taskId = some i)
    (hs : tableLookup s.table ⟨t.tid, i, true⟩ = none) :
    _trace_after_publish p s =
      { s with logs := s.logs ++ ["no existing span found for task_id=" ++ i] } := by
  simp only [_trace_after_publish, signal_retrieve_task_from_sender,
    signal_retrieve_task_id_from_message, hp, hi]
  simp [hs, logMsg]

theorem trace_retry_found_eq (p : Payload) (s : TraceState) (t : Task) (i reason : String)
    (idx : Nat) (hp : p.task = some t) (hi : p.taskId = some i)
    (hr : p.reason = some reason)
    (hs : tableLookup s.table ⟨t.tid, i, false⟩ = some idx) :
    _trace_retry p s =
      updateSpan s idx (fun sp =>
        { sp with attrs := setAttribute sp.attrs TASK_RETRY_REASON_KEY reason }) := by
  simp only [_trace_retry, signal_retrieve_task_from_sender,
    signal_retrieve_task_id_from_request, signal_retrieve_reason, hp, hi, hr]
  simp [hs]

/-! ### Frame-preservation lemmas for the non-opening handlers -/

theorem trace_postrun_spans_length (p : Payload) (s : TraceState) :
    (_trace_postrun p s).spans.length = s.spans.length := by
  rcases hp : p.task with _ | t
  · simp [_trace_postrun, signal_retrieve_task, hp]
  · rcases hi : p.taskId with _ | i
    · simp [_trace_postrun, signal_retrieve_task, signal_retrieve_task_id, hp, hi]
    · rcases hs : tableLookup s.table ⟨t.tid, i, false⟩ with _ | idx
      · rw [trace_postrun_notfound_eq p s t i hp hi hs]
      · rw [trace_postrun_found_eq p s t i idx hp hi hs]
        simp [updateSpan, logMsg]

theorem trace_after_publish_spans_length (p : Payload) (s : TraceState) :
    (_trace_after_publish p s).spans.length = s.spans.length := by
  rcases hp : p.task with _ | t
  · simp [_trace_after_publish, signal_retrieve_task_from_sender, hp]
  · rcases hi : p.taskId with _ | i
    · simp [_trace_after_publish, signal_retrieve_task_from_sender,
        signal_retrieve_task_id_from_message, hp, hi]
    · rcases hs : tableLookup s.table ⟨t.tid, i, true⟩ with _ | idx
      · rw [trace_after_publish_notfound_eq p s t i hp hi hs]
      · rw [trace_after_publish_found_eq p s t i idx hp hi hs]
        simp [updateSpan]

theorem trace_failure_cases (p : Payload) (s : TraceState) :
    _trace_failure p s =
      { s with logs := s.logs ++ ((signal_retrieve_task_from_sender p).2 ++
        (signal_retrieve_task_id p).2) } ∨
    ∃ t i idx ex, p.task = some t ∧ p.taskId = some i ∧ p.einfo = some ex ∧
      tableLookup s.table ⟨t.tid, i, false⟩ = some idx ∧
      _trace_failure p s = updateSpan s idx (fun sp =>
        { sp with status := some ⟨StatusCanonicalCode.UNKNOWN, ex.toStr⟩ }) := by
  rcases hp : p.task with _ | t
  · left; simp [_trace_failure, signal_retrieve_task_from_sender, hp]
  · rcases hi : p.taskId with _ | i
    · left
      simp [_trace_failure, signal_retrieve_task_from_sender, signal_retrieve_task_id,
        hp, hi]
    · rcases hs : tableLookup s.table ⟨t.tid, i, false⟩ with _ | idx
      · left
        simp [_trace_failure, signal_retrieve_task_from_sender, signal_retrieve_task_id,
          hp, hi, hs]
      · rcases he : p.einfo with _ | ex
        · left
          simp [_trace_failure, signal_retrieve_task_from_sender, signal_retrieve_task_id,
            hp, hi, hs, he]
        · rcases ht : t.throws with _ | ts
          · right
            refine ⟨t, i, idx, ex, rfl, rfl, rfl, hs, ?_⟩
            simp [_trace_failure, signal_retrieve_task_from_sender,
              signal_retrieve_task_id, updateSpan, hp, hi, hs, he, ht]
          · by_cases hmem : ex.excType ∈ ts
            · left
              simp [_trace_failure, signal_retrieve_task_from_sender,
                signal_retrieve_task_id, hp, hi, hs, he, ht, hmem]
            · right
              refine ⟨t, i, idx, ex, rfl, rfl, rfl, hs, ?_⟩
              simp [_trace_failure, signal_retrieve_task_from_sender,
                signal_retrieve_task_id, updateSpan, hp, hi, hs, he, ht, hmem]

theorem trace_failure_cases_of_ids (p : Payload) (s : TraceState) (t : Task)
    (i : String) (hp : p.task = some t) (hi : p.taskId = some i) :
    _trace_failure p s = s ∨
    ∃ idx ex, p.einfo = some ex ∧
      tableLookup s.table ⟨t.tid, i, false⟩ = some idx ∧
      _trace_failure p s = updateSpan s idx (fun sp =>
        { sp with status := some ⟨StatusCanonicalCode.UNKNOWN, ex.toStr⟩ }) := by
  rcases hs : tableLookup s.table ⟨t.tid, i, false⟩ with _ | idx
  · left
    simp [_trace_failure, signal_retrieve_task_from_sender, signal_retrieve_task_id,
      hp, hi, hs]
  · rcases he : p.einfo with _ | ex
    · left
      simp [_trace_failure, signal_retrieve_task_from_sender, signal_retrieve_task_id,
        hp, hi, hs, he]
    · rcases ht : t.throws with _ | ts
      · right
        refine ⟨idx, ex, rfl, rfl, ?_⟩
        simp [_trace_failure, signal_retrieve_task_from_sender,
          signal_retrieve_task_id, updateSpan, hp, hi, hs, he, ht]
      · by_cases hmem : ex.excType ∈ ts
        · left
          simp [_trace_failure, signal_retrieve_task_from_sender,
            signal_retrieve_task_id, hp, hi, hs, he, ht, hmem]
        · right
          refine ⟨idx, ex, rfl, rfl, ?_⟩
          simp [_trace_failure, signal_retrieve_task_from_sender,
            signal_retrieve_task_id, updateSpan, hp, hi, hs, he, ht, hmem]

theorem trace_retry_cases (p : Payload) (s : TraceState) :
    _trace_retry p s =
      { s with logs := s.logs ++ ((signal_retrieve_task_from_sender p).2 ++
        ((signal_retrieve_task_id_from_request p).2 ++ (signal_retrieve_reason p).2)) } ∨
    ∃ t i reason idx, p.task = some t ∧ p.taskId = some i ∧ p.reason = some reason ∧
      tableLookup s.table ⟨t.tid, i, false⟩ = some idx ∧
      _trace_retry p s = updateSpan s idx (fun sp =>
        { sp with attrs := setAttribute sp.attrs TASK_RETRY_REASON_KEY reason }) := by
  rcases hp : p.task with _ | t
  · left; simp [_trace_retry, signal_retrieve_task_from_sender, hp]
  · rcases hi : p.taskId with _ | i
    · left
      simp [_trace_retry, signal_retrieve_task_from_sender,
        signal_retrieve_task_id_from_request, hp, hi]
    · rcases hr : p.reason with _ | reason
      · left
        simp [_trace_retry, signal_retrieve_task_from_sender,
          signal_retrieve_task_id_from_request, signal_retrieve_reason, hp, hi, hr]
      · rcases hs : tableLookup s.table ⟨t.tid, i, false⟩ with _ | idx
        · left
          simp [_trace_retry, signal_retrieve_task_from_sender,
            signal_retrieve_task_id_from_request, signal_retrieve_reason, hp, hi, hr, hs]
        · right
          exact ⟨t, i, reason, idx, rfl, rfl, rfl, hs,
            trace_retry_found_eq p s t i reason idx hp hi hr hs⟩

theorem trace_failure_ended_map (p : Payload) (s : TraceState) (j : Nat) :
    ((_trace_failure p s).spans[j]?).map Span.ended = (s.spans[j]?).map Span.ended := by
  rcases trace_failure_cases p s with h | ⟨t, i, idx, ex, _, _, _, _, h⟩
  · rw [h]
  · rw [h]
    exact updateSpan_ended_map s idx
      (fun sp => { sp with status := some ⟨StatusCanonicalCode.UNKNOWN, ex.toStr⟩ })
      (fun sp => rfl) j

theorem trace_retry_ended_map (p : Payload) (s : TraceState) (j : Nat) :
    ((_trace_retry p s).spans[j]?).map Span.ended = (s.spans[j]?).map Span.ended := by
  rcases trace_retry_cases p s with h | ⟨t, i, reason, idx, _, _, _, _, h⟩
  · rw [h]
  · rw [h]
    exact updateSpan_ended_map s idx
      (fun sp => { sp with attrs := setAttribute sp.attrs TASK_RETRY_REASON_KEY reason })
      (fun sp => rfl) j

theorem trace_failure_spans_length (p : Payload) (s : TraceState) :
    (_trace_failure p s).spans.length = s.spans.length := by
  rcases trace_failure_cases p s with h | ⟨t, i, idx, ex, _, _, _, _, h⟩
  · rw [h]
  · rw [h, updateSpan_spans_length]

theorem trace_retry_spans_length (p : Payload) (s : TraceState) :
    (_trace_retry p s).spans.length = s.spans.length := by
  rcases trace_retry_cases p s with h | ⟨t, i, reason, idx, _, _, _, _, h⟩
  · rw [h]
  · rw [h, updateSpan_spans_length]

/-! ### Claim theorems -/

/-- C5: `_instrument` registers handlers for exactly the six named lifecycle
events (task-prerun, task-postrun, before-task-publish, after-task-publish,
task-failure, task-retry) and `_uninstrument` deregisters exactly those six,
leaving no handler registered afterwards. -/
theorem instrument_uninstrument_six_handlers :
    _instrument [] =
      [(SignalName.task_prerun, HandlerName.trace_prerun),
       (SignalName.task_postrun, HandlerName.trace_postrun),
       (SignalName.before_task_publish, HandlerName.trace_before_publish),
       (SignalName.after_task_publish, HandlerName.trace_after_publish),
       (SignalName.task_failure, HandlerName.trace_failure),
       (SignalName.task_retry, HandlerName.trace_retry)] ∧
    _uninstrument (_instrument []) = [] := by
  constructor <;> rfl

/-- C8: with task and task id present and a span attached, a `task_failure`
event without exception info (`einfo` absent) leaves the state completely
unchanged: no status, attribute or log is written. -/
theorem trace_failure_no_einfo_noop (p : Payload) (s : TraceState) (t : Task)
    (i : String) (idx : Nat)
    (hp : p.task = some t) (hi : p.taskId = some i) (he : p.einfo = none)
    (hs : tableLookup s.table ⟨t.tid, i, false⟩ = some idx) :
    _trace_failure p s = s := by
  simp [_trace_failure, signal_retrieve_task_from_sender, signal_retrieve_task_id,
    hp, hi, hs, he]

/-- Witness for C8 at a concrete payload and state. -/
theorem trace_failure_no_einfo_noop_witness :
    _trace_failure payloadNoEinfo stateW = stateW :=
  trace_failure_no_einfo_noop payloadNoEinfo stateW taskW "id-1" 0 rfl rfl rfl
    (by decide)

/-- C4: if the expected correlating identifiers (task, task id, or retry
reason) are absent from the event payload, each of the six handlers logs a
message (the retrieval helpers log on the missing path, per spec.md §7, so
the log grows by a nonempty list of messages) and returns without raising
and without starting, modifying, or closing any span: the spans and the
association table are unchanged. -/
theorem handlers_missing_ids_log_and_return (p : Payload) (s : TraceState)
    (h : p.task = none ∨ p.taskId = none) :
    ((_trace_prerun p s).spans = s.spans ∧ (_trace_prerun p s).table = s.table ∧
      ∃ ms, ms ≠ [] ∧ (_trace_prerun p s).logs = s.logs ++ ms) ∧
    ((_trace_postrun p s).spans = s.spans ∧ (_trace_postrun p s).table = s.table ∧
      ∃ ms, ms ≠ [] ∧ (_trace_postrun p s).logs = s.logs ++ ms) ∧
    ((_trace_before_publish p s).spans = s.spans ∧
      (_trace_before_publish p s).table = s.table ∧
      ∃ ms, ms ≠ [] ∧ (_trace_before_publish p s).logs = s.logs ++ ms) ∧
    ((_trace_after_publish p s).spans = s.spans ∧
      (_trace_after_publish p s).table = s.table ∧
      ∃ ms, ms ≠ [] ∧ (_trace_after_publish p s).logs = s.logs ++ ms) ∧
    ((_trace_failure p s).spans = s.spans ∧ (_trace_failure p s).table = s.table ∧
      ∃ ms, ms ≠ [] ∧ (_trace_failure p s).logs = s.logs ++ ms) ∧
    ((_trace_retry p s).spans = s.spans ∧ (_trace_retry p s).table = s.table ∧
      ∃ ms, ms ≠ [] ∧ (_trace_retry p s).logs = s.logs ++ ms) ∧
    (∀ (q : Payload) (u : TraceState), q.reason = none →
      (_trace_retry q u).spans = u.spans ∧ (_trace_retry q u).table = u.table ∧
      ∃ ms, ms ≠ [] ∧ (_trace_retry q u).logs = u.logs ++ ms) := by
  have hlast : ∀ (q : Payload) (u : TraceState), q.reason = none →
      (_trace_retry q u).spans = u.spans ∧ (_trace_retry q u).table = u.table ∧
      ∃ ms, ms ≠ [] ∧ (_trace_retry q u).logs = u.logs ++ ms := by
    intro q u hr
    rcases hq : q.task with _ | t
    · exact ⟨by simp [_trace_retry, signal_retrieve_task_from_sender, hq],
        by simp [_trace_retry, signal_retrieve_task_from_sender, hq],
        "unable to retrieve task from sender" ::
          ((signal_retrieve_task_id_from_request q).2 ++ (signal_retrieve_reason q).2),
        by simp,
        by simp [_trace_retry, signal_retrieve_task_from_sender, hq]⟩
    · rcases hqi : q.taskId with _ | ii
      · exact ⟨by simp [_trace_retry, signal_retrieve_task_from_sender,
            signal_retrieve_task_id_from_request, hq, hqi],
          by simp [_trace_retry, signal_retrieve_task_from_sender,
            signal_retrieve_task_id_from_request, hq, hqi],
          "unable to retrieve task_id from request" :: (signal_retrieve_reason q).2,
          by simp,
          by simp [_trace_retry, signal_retrieve_task_from_sender,
            signal_retrieve_task_id_from_request, hq, hqi]⟩
      · exact ⟨by simp [_trace_retry, signal_retrieve_task_from_sender,
            signal_retrieve_task_id_from_request, signal_retrieve_reason, hq, hqi, hr],
          by simp [_trace_retry, signal_retrieve_task_from_sender,
            signal_retrieve_task_id_from_request, signal_retrieve_reason, hq, hqi, hr],
          ["unable to retrieve retry reason from signal arguments"],
          by simp,
          by simp [_trace_retry, signal_retrieve_task_from_sender,
            signal_retrieve_task_id_from_request, signal_retrieve_reason, hq, hqi, hr]⟩
  have htask : p.task = none →
      ((_trace_prerun p s).spans = s.spans ∧ (_trace_prerun p s).table = s.table ∧
        ∃ ms, ms ≠ [] ∧ (_trace_prerun p s).logs = s.logs ++ ms) ∧
      ((_trace_postrun p s).spans = s.spans ∧ (_trace_postrun p s).table = s.table ∧
        ∃ ms, ms ≠ [] ∧ (_trace_postrun p s).logs = s.logs ++ ms) ∧
      ((_trace_before_publish p s).spans = s.spans ∧
        (_trace_before_publish p s).table = s.table ∧
        ∃ ms, ms ≠ [] ∧ (_trace_before_publish p s).logs = s.logs ++ ms) ∧
      ((_trace_after_publish p s).spans = s.spans ∧
        (_trace_after_publish p s).table = s.table ∧
        ∃ ms, ms ≠ [] ∧ (_trace_after_publish p s).logs = s.logs ++ ms) ∧
      ((_trace_failure p s).spans = s.spans ∧ (_trace_failure p s).table = s.table ∧
        ∃ ms, ms ≠ [] ∧ (_trace_failure p s).logs = s.logs ++ ms) ∧
      ((_trace_retry p s).spans = s.spans ∧ (_trace_retry p s).table = s.table ∧
        ∃ ms, ms ≠ [] ∧ (_trace_retry p s).logs = s.logs ++ ms) := by
    intro hq
    refine ⟨⟨by simp [_trace_prerun, signal_retrieve_task, hq],
        by simp [_trace_prerun, signal_retrieve_task, hq],
        "unable to retrieve task from signal arguments" :: (signal_retrieve_task_id p).2,
        by simp,
        by simp [_trace_prerun, signal_retrieve_task, hq]⟩,
      ⟨by simp [_trace_postrun, signal_retrieve_task, hq],
        by simp [_trace_postrun, signal_retrieve_task, hq],
        "unable to retrieve task from signal arguments" :: (signal_retrieve_task_id p).2,
        by simp,
        by simp [_trace_postrun, signal_retrieve_task, hq]⟩,
      ⟨by simp [_trace_before_publish, signal_retrieve_task_from_sender, hq],
        by simp [_trace_before_publish, signal_retrieve_task_from_sender, hq],
        "unable to retrieve task from sender" ::
          (signal_retrieve_task_id_from_message p).2,
        by simp,
        by simp [_trace_before_publish, signal_retrieve_task_from_sender, hq]⟩,
      ⟨by simp [_trace_after_publish, signal_retrieve_task_from_sender, hq],
        by simp [_trace_after_publish, signal_retrieve_task_from_sender, hq],
        "unable to retrieve task from sender" ::
          (signal_retrieve_task_id_from_message p).2,
        by simp,
        by simp [_trace_after_publish, signal_retrieve_task_from_sender, hq]⟩,
      ⟨by simp [_trace_failure, signal_retrieve_task_from_sender, hq],
        by simp [_trace_failure, signal_retrieve_task_from_sender, hq],
        "unable to retrieve task from sender" :: (signal_retrieve_task_id p).2,
        by simp,
        by simp [_trace_failure, signal_retrieve_task_from_sender, hq]⟩,
      ⟨by simp [_trace_retry, signal_retrieve_task_from_sender, hq],
        by simp [_trace_retry, signal_retrieve_task_from_sender, hq],
        "unable to retrieve task from sender" ::
          ((signal_retrieve_task_id_from_request p).2 ++ (signal_retrieve_reason p).2),
        by simp,
        by simp [_trace_retry, signal_retrieve_task_from_sender, hq]⟩⟩
  rcases h with h | h
  · rcases htask h with ⟨h1, h2, h3, h4, h5, h6⟩
    exact ⟨h1, h2, h3, h4, h5, h6, hlast⟩
  · rcases hq : p.task with _ | t
    · rcases htask hq with ⟨h1, h2, h3, h4, h5, h6⟩
      exact ⟨h1, h2, h3, h4, h5, h6, hlast⟩
    · refine ⟨⟨by simp [_trace_prerun, signal_retrieve_task,
            signal_retrieve_task_id, hq, h],
          by simp [_trace_prerun, signal_retrieve_task, signal_retrieve_task_id, hq, h],
          ["unable to retrieve task_id from signal arguments"],
          by simp,
          by simp [_trace_prerun, signal_retrieve_task, signal_retrieve_task_id,
            hq, h]⟩,
        ⟨by simp [_trace_postrun, signal_retrieve_task, signal_retrieve_task_id, hq, h],
          by simp [_trace_postrun, signal_retrieve_task, signal_retrieve_task_id, hq, h],
          ["unable to retrieve task_id from signal arguments"],
          by simp,
          by simp [_trace_postrun, signal_retrieve_task, signal_retrieve_task_id,
            hq, h]⟩,
        ⟨by simp [_trace_before_publish, signal_retrieve_task_from_sender,
            signal_retrieve_task_id_from_message, hq, h],
          by simp [_trace_before_publish, signal_retrieve_task_from_sender,
            signal_retrieve_task_id_from_message, hq, h],
          ["unable to retrieve task_id from message headers"],
          by simp,
          by simp [_trace_before_publish, signal_retrieve_task_from_sender,
            signal_retrieve_task_id_from_message, hq, h]⟩,
        ⟨by simp [_trace_after_publish, signal_retrieve_task_from_sender,
            signal_retrieve_task_id_from_message, hq, h],
          by simp [_trace_after_publish, signal_retrieve_task_from_sender,
            signal_retrieve_task_id_from_message, hq, h],
          ["unable to retrieve task_id from message headers"],
          by simp,
          by simp [_trace_after_publish, signal_retrieve_task_from_sender,
            signal_retrieve_task_id_from_message, hq, h]⟩,
        ⟨by simp [_trace_failure, signal_retrieve_task_from_sender,
            signal_retrieve_task_id, hq, h],
          by simp [_trace_failure, signal_retrieve_task_from_sender,
            signal_retrieve_task_id, hq, h],
          ["unable to retrieve task_id from signal arguments"],
          by simp,
          by simp [_trace_failure, signal_retrieve_task_from_sender,
            signal_retrieve_task_id, hq, h]⟩,
        ⟨by simp [_trace_retry, signal_retrieve_task_from_sender,
            signal_retrieve_task_id_from_request, hq, h],
          by simp [_trace_retry, signal_retrieve_task_from_sender,
            signal_retrieve_task_id_from_request, hq, h],
          "unable to retrieve task_id from request" :: (signal_retrieve_reason p).2,
          by simp,
          by simp [_trace_retry, signal_retrieve_task_from_sender,
            signal_retrieve_task_id_from_request, hq, h]⟩, hlast⟩

/-- Witness for C4 at a concrete payload with the task missing: the prerun
handler keeps the spans and logs a message. -/
theorem handlers_missing_ids_log_and_return_witness :
    (_trace_prerun payloadNoTask stateW).spans = stateW.spans ∧
    (_trace_prerun payloadNoTask stateW).logs =
      stateW.logs ++ ["unable to retrieve task from signal arguments"] :=
  ⟨(handlers_missing_ids_log_and_return payloadNoTask stateW (Or.inl rfl)).1.1,
    by rfl⟩

/-- C2: on a `task_failure` event with exception info for a task with an
attached span and a declared `throws` tuple, an error status is set on the
span if and only if the exception type is not in the tuple; when it is in
the tuple the whole state (hence the span's status) is unchanged. -/
theorem trace_failure_allowlist (p : Payload) (s : TraceState) (t : Task)
    (i : String) (idx : Nat) (ex : EInfo) (ts : List Nat)
    (hp : p.task = some t) (hi : p.taskId = some i)
    (hs : tableLookup s.table ⟨t.tid, i, false⟩ = some idx)
    (hidx : idx < s.spans.length)
    (he : p.einfo = some ex) (ht : t.throws = some ts) :
    (ex.excType ∈ ts → _trace_failure p s = s) ∧
    (ex.excType ∉ ts →
      ((_trace_failure p s).spans[idx]?).map Span.status =
        some (some ⟨StatusCanonicalCode.UNKNOWN, ex.toStr⟩) ∧
      (∀ j, j ≠ idx → (_trace_failure p s).spans[j]? = s.spans[j]?)) := by
  constructor
  · intro hmem
    simp [_trace_failure, signal_retrieve_task_from_sender, signal_retrieve_task_id,
      hp, hi, hs, he, ht, hmem]
  · intro hmem
    have heq : _trace_failure p s = updateSpan s idx (fun sp =>
        { sp with status := some ⟨StatusCanonicalCode.UNKNOWN, ex.toStr⟩ }) := by
      simp [_trace_failure, signal_retrieve_task_from_sender, signal_retrieve_task_id,
        hp, hi, hs, he, ht, hmem]
    rw [heq]
    constructor
    · rw [updateSpan_getElem_self s idx _ hidx]
      rfl
    · intro j hj
      exact updateSpan_getElem_ne s idx _ j hj

/-- Witness for C2: both directions at concrete inputs — a disallowed
exception sets the UNKNOWN status, an allow-listed one leaves the state
unchanged. -/
theorem trace_failure_allowlist_witness :
    ((_trace_failure payloadW stateW).spans[0]?).map Span.status =
      some (some ⟨StatusCanonicalCode.UNKNOWN, "ValueError: boom"⟩) ∧
    _trace_failure payloadThrown stateW = stateW :=
  ⟨((trace_failure_allowlist payloadW stateW taskW "id-1" 0 ⟨5, "ValueError: boom"⟩ [7]
      rfl rfl (by decide) (by decide) rfl rfl).2 (by decide)).1,
    (trace_failure_allowlist payloadThrown stateW taskW "id-1" 0 ⟨7, "Expected: skip"⟩ [7]
      rfl rfl (by decide) (by decide) rfl rfl).1 (by decide)⟩

/-- C3: on a `task_retry` event with task, request id and reason present and
a span attached, the handler records `"celery.retry.reason"` as the string
form of the reason and neither ends, exits nor detaches the span: the span
is still open and the table and logs are unchanged. -/
theorem trace_retry_reason_span_open (p : Payload) (s : TraceState) (t : Task)
    (i reason : String) (idx : Nat)
    (hp : p.task = some t) (hi : p.taskId = some i) (hr : p.reason = some reason)
    (hs : tableLookup s.table ⟨t.tid, i, false⟩ = some idx)
    (hidx : idx < s.spans.length)
    (hopen : ((s.spans[idx]?).map Span.ended) = some false) :
    ((_trace_retry p s).spans[idx]?).map
        (fun sp => attrLookup sp.attrs TASK_RETRY_REASON_KEY) = some (some reason) ∧
    ((_trace_retry p s).spans[idx]?).map Span.ended = some false ∧
    (_trace_retry p s).table = s.table ∧
    (_trace_retry p s).logs = s.logs ∧
    (_trace_retry p s).spans.length = s.spans.length := by
  have heq := trace_retry_found_eq p s t i reason idx hp hi hr hs
  rw [heq]
  have hended : (s.spans.getD idx default).ended = false := by
    rw [List.getD_eq_getElem?_getD, List.getElem?_eq_getElem hidx]
    rw [List.getElem?_eq_getElem hidx] at hopen
    simpa using hopen
  refine ⟨?_, ?_, rfl, rfl, updateSpan_spans_length s idx _⟩
  · rw [updateSpan_getElem_self s idx _ hidx]
    simp [attrLookup_setAttribute_self]
  · rw [updateSpan_getElem_self s idx _ hidx]
    simpa using hended

/-- Witness for C3 at a concrete retry payload and state. -/
theorem trace_retry_reason_span_open_witness :
    ((_trace_retry payloadW stateW).spans[0]?).map
      (fun sp => attrLookup sp.attrs TASK_RETRY_REASON_KEY) = some (some "Retry in 3s") :=
  (trace_retry_reason_span_open payloadW stateW taskW "id-1" "Retry in 3s" 0
    rfl rfl rfl (by decide) (by decide) (by decide)).1

theorem trace_prerun_getElem_lt (q : Payload) (u : TraceState) (j : Nat)
    (hj : j < u.spans.length) : (_trace_prerun q u).spans[j]? = u.spans[j]? := by
  rcases hq : q.task with _ | t
  · simp [_trace_prerun, signal_retrieve_task, hq]
  · rcases hqi : q.taskId with _ | i
    · simp [_trace_prerun, signal_retrieve_task, signal_retrieve_task_id, hq, hqi]
    · rw [trace_prerun_eq q u t i hq hqi]
      exact List.getElem?_append_left hj

theorem trace_before_publish_getElem_lt (q : Payload) (u : TraceState) (j : Nat)
    (hj : j < u.spans.length) : (_trace_before_publish q u).spans[j]? = u.spans[j]? := by
  rcases hq : q.task with _ | t
  · simp [_trace_before_publish, signal_retrieve_task_from_sender, hq]
  · rcases hqi : q.taskId with _ | i
    · simp [_trace_before_publish, signal_retrieve_task_from_sender,
        signal_retrieve_task_id_from_message, hq, hqi]
    · rw [trace_before_publish_eq q u t i hq hqi]
      exact List.getElem?_append_left hj

/-- C6: the attributes recorded equal the event payload fields: the
before-publish span carries `"messaging.message_id" = task_id`,
`"celery.task_name" = task.name` and `"celery.action" = "apply_async"`, and
after postrun the run span carries `"celery.action" = "run"` and
`"celery.task_name" = task.name` (given that the payload contexts do not
themselves use these attribute names, which Celery signal payloads never
do). -/
theorem recorded_attributes_match_payload (p : Payload) (s : TraceState) (t : Task)
    (i : String) (idx : Nat)
    (hp : p.task = some t) (hi : p.taskId = some i)
    (hctx1 : TASK_TAG_KEY ∉ p.ctx.map Prod.fst)
    (hctx2 : TASK_NAME_KEY ∉ p.ctx.map Prod.fst)
    (hctx3 : MESSAGE_ID_ATTRIBUTE_NAME ∉ p.ctx.map Prod.fst)
    (hreq : TASK_TAG_KEY ∉ p.requestCtx.map Prod.fst)
    (hs : tableLookup s.table ⟨t.tid, i, false⟩ = some idx)
    (hidx : idx < s.spans.length) :
    ((_trace_before_publish p s).spans[s.spans.length]?).map
        (fun sp => (attrLookup sp.attrs MESSAGE_ID_ATTRIBUTE_NAME,
          attrLookup sp.attrs TASK_NAME_KEY, attrLookup sp.attrs TASK_TAG_KEY)) =
      some (some i, some t.name, some TASK_APPLY_ASYNC) ∧
    ((_trace_postrun p s).spans[idx]?).map
        (fun sp => (attrLookup sp.attrs TASK_TAG_KEY, attrLookup sp.attrs TASK_NAME_KEY)) =
      some (some TASK_RUN, some t.name) := by
  constructor
  · rw [trace_before_publish_eq p s t i hp hi]
    have hcat : (s.spans ++ [publishSpan p t i])[s.spans.length]? =
        some (publishSpan p t i) := List.getElem?_concat_length _ _
    simp only [hcat, Option.map_some]
    refine congrArg some ?_
    refine Prod.ext ?_ (Prod.ext ?_ ?_) <;> simp only [publishSpan]
    · rw [attrLookup_set_attributes_from_context _ _ _ hctx3,
        attrLookup_setAttribute_ne _ _ _ _ (by decide),
        attrLookup_setAttribute_self]
    · rw [attrLookup_set_attributes_from_context _ _ _ hctx2,
        attrLookup_setAttribute_self]
    · rw [attrLookup_set_attributes_from_context _ _ _ hctx1,
        attrLookup_setAttribute_ne _ _ _ _ (by decide),
        attrLookup_setAttribute_ne _ _ _ _ (by decide),
        attrLookup_setAttribute_self]
  · rw [trace_postrun_found_eq p s t i idx hp hi hs]
    have hidx' : idx < (logMsg s ("postrun signal task_id=" ++ i)).spans.length := hidx
    have hsp := updateSpan_getElem_self (logMsg s ("postrun signal task_id=" ++ i)) idx
      (postrunUpdate p t) hidx'
    have hspans : ({ updateSpan (logMsg s ("postrun signal task_id=" ++ i)) idx
        (postrunUpdate p t) with
        table := tableErase s.table ⟨t.tid, i, false⟩ } : TraceState).spans[idx]? =
        some (postrunUpdate p t ((logMsg s ("postrun signal task_id=" ++ i)).spans.getD
          idx default)) := hsp
    simp only [hspans, Option.map_some]
    refine congrArg some ?_
    refine Prod.ext ?_ ?_ <;> simp only [postrunUpdate]
    · rw [attrLookup_setAttribute_ne _ _ _ _ (by decide),
        attrLookup_set_attributes_from_context _ _ _ hreq,
        attrLookup_set_attributes_from_context _ _ _ hctx1,
        attrLookup_setAttribute_self]
    · rw [attrLookup_setAttribute_self]

/-- Witness for C6 at a concrete publish/postrun payload and state. -/
theorem recorded_attributes_match_payload_witness :
    ((_trace_before_publish payloadW stateW).spans[1]?).map
        (fun sp => (attrLookup sp.attrs MESSAGE_ID_ATTRIBUTE_NAME,
          attrLookup sp.attrs TASK_NAME_KEY, attrLookup sp.attrs TASK_TAG_KEY)) =
      some (some "id-1", some "add", some TASK_APPLY_ASYNC) :=
  (recorded_attributes_match_payload payloadW stateW taskW "id-1" 0
    rfl rfl (by decide) (by decide) (by decide) (by decide) (by decide) (by decide)).1

/-- C7: a `task_failure` event is recorded only as a status annotation on
the existing span: for every payload carrying the correlating identifiers
and every state, the handler leaves the table, the logs, the number of
spans and every span's name, kind, attributes and ended flag unchanged, and
any status it writes is the UNKNOWN code with `str(einfo)` as description;
being a total function it raises nothing and neither suppresses nor
re-raises the task's exception. -/
theorem trace_failure_status_only (p : Payload) (s : TraceState) (t : Task)
    (i : String) (hp : p.task = some t) (hi : p.taskId = some i) :
    (_trace_failure p s).table = s.table ∧
    (_trace_failure p s).logs = s.logs ∧
    (_trace_failure p s).spans.length = s.spans.length ∧
    (∀ j : Nat, ((_trace_failure p s).spans[j]?).map
        (fun sp => (sp.name, sp.kind, sp.attrs, sp.ended)) =
      (s.spans[j]?).map (fun sp => (sp.name, sp.kind, sp.attrs, sp.ended))) ∧
    (∀ (j : Nat) (sp sp' : Span), s.spans[j]? = some sp →
      (_trace_failure p s).spans[j]? = some sp' →
      sp'.status = sp.status ∨
      ∃ ex, p.einfo = some ex ∧
        sp'.status = some ⟨StatusCanonicalCode.UNKNOWN, ex.toStr⟩) := by
  rcases trace_failure_cases_of_ids p s t i hp hi with h | ⟨idx, ex, he, hs, h⟩
  · rw [h]
    exact ⟨rfl, rfl, rfl, fun j => rfl, fun j sp sp' h1 h2 => Or.inl (by
      rw [h1] at h2
      rw [Option.some.inj h2])⟩
  · rw [h]
    refine ⟨rfl, rfl, updateSpan_spans_length s idx _, ?_, ?_⟩
    · exact fun j => updateSpan_shape s idx
        (fun sp => { sp with status := some ⟨StatusCanonicalCode.UNKNOWN, ex.toStr⟩ })
        (fun sp => ⟨rfl, rfl, rfl, rfl⟩) j
    · intro j sp sp' h1 h2
      by_cases hj : j = idx
      · subst hj
        have hjlt : j < s.spans.length := by
          rcases List.getElem?_eq_some_iff.mp h1 with ⟨hh, _⟩
          exact hh
        rw [updateSpan_getElem_self s j
          (fun sp => { sp with status := some ⟨StatusCanonicalCode.UNKNOWN, ex.toStr⟩ })
          hjlt] at h2
        have hd : s.spans.getD j default = sp := by
          rw [List.getD_eq_getElem?_getD, h1]
          rfl
        rw [hd] at h2
        exact Or.inr ⟨ex, he, by rw [← Option.some.inj h2]⟩
      · rw [updateSpan_getElem_ne s idx _ j hj, h1] at h2
        exact Or.inl (by rw [Option.some.inj h2])

/-- Witness for C7 at a concrete failure payload and state. -/
theorem trace_failure_status_only_witness :
    (_trace_failure payloadW stateW).table = stateW.table ∧
    (_trace_failure payloadW stateW).logs = stateW.logs :=
  ⟨(trace_failure_status_only payloadW stateW taskW "id-1" rfl rfl).1,
    (trace_failure_status_only payloadW stateW taskW "id-1" rfl rfl).2.1⟩

/-- C10: every span opened at task-prerun has kind CONSUMER and the task's
name, every span opened at before-publish has kind PRODUCER and the task's
name, and no other handler starts a span (the other four handlers never
change the number of spans). -/
theorem opened_span_kinds_and_names (p : Payload) (s : TraceState) (t : Task)
    (i : String) (hp : p.task = some t) (hi : p.taskId = some i) :
    (_trace_prerun p s).spans.length = s.spans.length + 1 ∧
    ((_trace_prerun p s).spans[s.spans.length]?).map (fun sp => (sp.name, sp.kind)) =
      some (t.name, SpanKind.consumer) ∧
    (_trace_before_publish p s).spans.length = s.spans.length + 1 ∧
    ((_trace_before_publish p s).spans[s.spans.length]?).map (fun sp => (sp.name, sp.kind)) =
      some (t.name, SpanKind.producer) ∧
    (∀ (q : Payload) (u : TraceState), (_trace_postrun q u).spans.length = u.spans.length) ∧
    (∀ (q : Payload) (u : TraceState),
      (_trace_after_publish q u).spans.length = u.spans.length) ∧
    (∀ (q : Payload) (u : TraceState), (_trace_failure q u).spans.length = u.spans.length) ∧
    (∀ (q : Payload) (u : TraceState), (_trace_retry q u).spans.length = u.spans.length) := by
  refine ⟨?_, ?_, ?_, ?_, trace_postrun_spans_length, trace_after_publish_spans_length,
    trace_failure_spans_length, trace_retry_spans_length⟩
  · rw [trace_prerun_eq p s t i hp hi]
    simp
  · rw [trace_prerun_eq p s t i hp hi]
    have hcat : (s.spans ++ [prerunSpan t])[s.spans.length]? = some (prerunSpan t) :=
      List.getElem?_concat_length _ _
    simp [hcat, prerunSpan]
  · rw [trace_before_publish_eq p s t i hp hi]
    simp
  · rw [trace_before_publish_eq p s t i hp hi]
    have hcat : (s.spans ++ [publishSpan p t i])[s.spans.length]? =
        some (publishSpan p t i) := List.getElem?_concat_length _ _
    simp [hcat, publishSpan]

/-- Witness for C10 at a concrete payload and state. -/
theorem opened_span_kinds_and_names_witness :
    ((_trace_prerun payloadFresh stateEmpty).spans[0]?).map (fun sp => (sp.name, sp.kind)) =
      some ("add", SpanKind.consumer) :=
  (opened_span_kinds_and_names payloadFresh stateEmpty taskW "id-2" rfl rfl).2.1

/-- C1: for a task execution observed via matching prerun/postrun events
(same task, same task id), exactly one span is opened at task-prerun (open,
attached under the run key) and it is closed exactly once at the matching
task-postrun (ended, detached, other spans untouched, and a repeated postrun
changes no span); likewise one span opened at before-publish is closed
exactly once at the matching after-publish; and no other handler closes a
span (task-failure and task-retry never change any ended flag, and the two
opening handlers never change the ended flag of an existing span). -/
theorem span_opened_closed_exactly_once (p : Payload) (s : TraceState) (t : Task)
    (i : String) (hp : p.task = some t) (hi : p.taskId = some i) :
    (_trace_prerun p s).spans.length = s.spans.length + 1 ∧
    ((_trace_prerun p s).spans[s.spans.length]?).map Span.ended = some false ∧
    tableLookup (_trace_prerun p s).table ⟨t.tid, i, false⟩ = some s.spans.length ∧
    (_trace_postrun p (_trace_prerun p s)).spans.length = s.spans.length + 1 ∧
    ((_trace_postrun p (_trace_prerun p s)).spans[s.spans.length]?).map Span.ended =
      some true ∧
    (∀ j : Nat, j ≠ s.spans.length →
      ((_trace_postrun p (_trace_prerun p s)).spans[j]?).map Span.ended =
        ((_trace_prerun p s).spans[j]?).map Span.ended) ∧
    tableLookup (_trace_postrun p (_trace_prerun p s)).table ⟨t.tid, i, false⟩ = none ∧
    (_trace_postrun p (_trace_postrun p (_trace_prerun p s))).spans =
      (_trace_postrun p (_trace_prerun p s)).spans ∧
    (_trace_before_publish p s).spans.length = s.spans.length + 1 ∧
    ((_trace_before_publish p s).spans[s.spans.length]?).map Span.ended = some false ∧
    tableLookup (_trace_before_publish p s).table ⟨t.tid, i, true⟩ =
      some s.spans.length ∧
    ((_trace_after_publish p (_trace_before_publish p s)).spans[s.spans.length]?).map
      Span.ended = some true ∧
    (∀ j : Nat, j ≠ s.spans.length →
      ((_trace_after_publish p (_trace_before_publish p s)).spans[j]?).map Span.ended =
        ((_trace_before_publish p s).spans[j]?).map Span.ended) ∧
    tableLookup (_trace_after_publish p (_trace_before_publish p s)).table
      ⟨t.tid, i, true⟩ = none ∧
    (_trace_after_publish p (_trace_after_publish p (_trace_before_publish p s))).spans =
      (_trace_after_publish p (_trace_before_publish p s)).spans ∧
    (∀ (q : Payload) (u : TraceState) (j : Nat),
      ((_trace_failure q u).spans[j]?).map Span.ended = (u.spans[j]?).map Span.ended) ∧
    (∀ (q : Payload) (u : TraceState) (j : Nat),
      ((_trace_retry q u).spans[j]?).map Span.ended = (u.spans[j]?).map Span.ended) ∧
    (∀ (q : Payload) (u : TraceState) (j : Nat), j < u.spans.length →
      ((_trace_prerun q u).spans[j]?).map Span.ended = (u.spans[j]?).map Span.ended) ∧
    (∀ (q : Payload) (u : TraceState) (j : Nat), j < u.spans.length →
      ((_trace_before_publish q u).spans[j]?).map Span.ended =
        (u.spans[j]?).map Span.ended) := by
  have hpre := trace_prerun_eq p s t i hp hi
  have hlen1 : (_trace_prerun p s).spans.length = s.spans.length + 1 := by
    rw [hpre]
    simp
  have hnew1 : (_trace_prerun p s).spans[s.spans.length]? = some (prerunSpan t) := by
    rw [hpre]
    exact List.getElem?_concat_length _ _
  have htab1 : tableLookup (_trace_prerun p s).table ⟨t.tid, i, false⟩ =
      some s.spans.length := by
    rw [hpre]
    exact tableLookup_tableSet_self _ _ _
  have hpost := trace_postrun_found_eq p (_trace_prerun p s) t i s.spans.length hp hi htab1
  have hidxlog : s.spans.length <
      (logMsg (_trace_prerun p s) ("postrun signal task_id=" ++ i)).spans.length := by
    simp [logMsg, hlen1]
  have hlen2 : (_trace_postrun p (_trace_prerun p s)).spans.length =
      s.spans.length + 1 := by
    rw [hpost]
    simp [updateSpan, logMsg, hlen1]
  have hend2 : ((_trace_postrun p (_trace_prerun p s)).spans[s.spans.length]?).map
      Span.ended = some true := by
    rw [hpost]
    have hsp : ({ updateSpan (logMsg (_trace_prerun p s) ("postrun signal task_id=" ++ i))
        (s.spans.length) (postrunUpdate p t) with
        table := tableErase (_trace_prerun p s).table ⟨t.tid, i, false⟩ } :
        TraceState).spans[s.spans.length]? =
        some (postrunUpdate p t ((logMsg (_trace_prerun p s)
          ("postrun signal task_id=" ++ i)).spans.getD s.spans.length default)) :=
      updateSpan_getElem_self _ _ _ hidxlog
    rw [hsp]
    simp [postrunUpdate]
  have hne2 : ∀ j : Nat, j ≠ s.spans.length →
      ((_trace_postrun p (_trace_prerun p s)).spans[j]?).map Span.ended =
        ((_trace_prerun p s).spans[j]?).map Span.ended := by
    intro j hj
    rw [hpost]
    have hsp : ({ updateSpan (logMsg (_trace_prerun p s) ("postrun signal task_id=" ++ i))
        (s.spans.length) (postrunUpdate p t) with
        table := tableErase (_trace_prerun p s).table ⟨t.tid, i, false⟩ } :
        TraceState).spans[j]? =
        (logMsg (_trace_prerun p s) ("postrun signal task_id=" ++ i)).spans[j]? :=
      updateSpan_getElem_ne _ _ _ j hj
    rw [hsp]
    rfl
  have htab2 : tableLookup (_trace_postrun p (_trace_prerun p s)).table
      ⟨t.tid, i, false⟩ = none := by
    rw [hpost]
    exact tableLookup_tableErase_self _ _
  have hsecond : (_trace_postrun p (_trace_postrun p (_trace_prerun p s))).spans =
      (_trace_postrun p (_trace_prerun p s)).spans := by
    rw [trace_postrun_notfound_eq p (_trace_postrun p (_trace_prerun p s)) t i hp hi htab2]
  have hbpe := trace_before_publish_eq p s t i hp hi
  have hblen1 : (_trace_before_publish p s).spans.length = s.spans.length + 1 := by
    rw [hbpe]
    simp
  have hbnew1 : (_trace_before_publish p s).spans[s.spans.length]? =
      some (publishSpan p t i) := by
    rw [hbpe]
    exact List.getElem?_concat_length _ _
  have hbtab1 : tableLookup (_trace_before_publish p s).table ⟨t.tid, i, true⟩ =
      some s.spans.length := by
    rw [hbpe]
    exact tableLookup_tableSet_self _ _ _
  have hafter := trace_after_publish_found_eq p (_trace_before_publish p s) t i
    s.spans.length hp hi hbtab1
  have hbidx : s.spans.length < (_trace_before_publish p s).spans.length := by
    rw [hblen1]
    exact Nat.lt_succ_self _
  have hbend2 : ((_trace_after_publish p (_trace_before_publish p s)).spans[s.spans.length]?).map
      Span.ended = some true := by
    rw [hafter]
    show ((updateSpan (_trace_before_publish p s) (s.spans.length)
      (fun sp => { sp with ended := true })).spans[s.spans.length]?).map Span.ended =
      some true
    rw [updateSpan_getElem_self (_trace_before_publish p s) (s.spans.length)
      (fun sp => { sp with ended := true }) hbidx]
    rfl
  have hbne2 : ∀ j : Nat, j ≠ s.spans.length →
      ((_trace_after_publish p (_trace_before_publish p s)).spans[j]?).map Span.ended =
        ((_trace_before_publish p s).spans[j]?).map Span.ended := by
    intro j hj
    rw [hafter]
    show ((updateSpan (_trace_before_publish p s) (s.spans.length)
      (fun sp => { sp with ended := true })).spans[j]?).map Span.ended =
      ((_trace_before_publish p s).spans[j]?).map Span.ended
    rw [updateSpan_getElem_ne (_trace_before_publish p s) (s.spans.length)
      (fun sp => { sp with ended := true }) j hj]
  have hbtab2 : tableLookup (_trace_after_publish p (_trace_before_publish p s)).table
      ⟨t.tid, i, true⟩ = none := by
    rw [hafter]
    exact tableLookup_tableErase_self _ _
  have hbsecond : (_trace_after_publish p
      (_trace_after_publish p (_trace_before_publish p s))).spans =
      (_trace_after_publish p (_trace_before_publish p s)).spans := by
    rw [trace_after_publish_notfound_eq p
      (_trace_after_publish p (_trace_before_publish p s)) t i hp hi hbtab2]
  refine ⟨hlen1, ?_, htab1, hlen2, hend2, hne2, htab2, hsecond,
    hblen1, ?_, hbtab1, hbend2, hbne2, hbtab2, hbsecond,
    fun q u j => trace_failure_ended_map q u j,
    fun q u j => trace_retry_ended_map q u j,
    fun q u j hj => by rw [trace_prerun_getElem_lt q u j hj],
    fun q u j hj => by rw [trace_before_publish_getElem_lt q u j hj]⟩
  · rw [hnew1]
    rfl
  · rw [hbnew1]
    rfl

/-- Witness for C1 at a concrete payload and the empty state. -/
theorem span_opened_closed_exactly_once_witness :
    ((_trace_postrun payloadFresh (_trace_prerun payloadFresh stateEmpty)).spans[0]?).map
      Span.ended = some true :=
  (span_opened_closed_exactly_once payloadFresh stateEmpty taskW "id-2"
    rfl rfl).2.2.2.2.1

/-- C9: publish-direction and run-direction spans of the same task and task
id live under distinct keys (the `is_publish` flag): with both attached,
task-postrun ends only the run span (the publish span stays open and stays
in the table) and after-publish ends only the publish span (the run span
stays open and stays in the table). -/
theorem publish_and_run_spans_distinct (p : Payload) (s : TraceState) (t : Task)
    (i : String) (hp : p.task = some t) (hi : p.taskId = some i) :
    ((_trace_postrun p (_trace_prerun p (_trace_before_publish p s))).spans[s.spans.length]?).map
      Span.ended = some false ∧
    ((_trace_postrun p (_trace_prerun p (_trace_before_publish p s))).spans[s.spans.length + 1]?).map
      Span.ended = some true ∧
    tableLookup (_trace_postrun p (_trace_prerun p (_trace_before_publish p s))).table
      ⟨t.tid, i, true⟩ = some s.spans.length ∧
    ((_trace_after_publish p (_trace_prerun p (_trace_before_publish p s))).spans[s.spans.length]?).map
      Span.ended = some true ∧
    ((_trace_after_publish p (_trace_prerun p (_trace_before_publish p s))).spans[s.spans.length + 1]?).map
      Span.ended = some false ∧
    tableLookup (_trace_after_publish p (_trace_prerun p (_trace_before_publish p s))).table
      ⟨t.tid, i, false⟩ = some (s.spans.length + 1) := by
  have hkey : (⟨t.tid, i, false⟩ : SpanKey) ≠ ⟨t.tid, i, true⟩ := by
    intro hh
    simpa using congrArg SpanKey.isPublish hh
  have hkey' : (⟨t.tid, i, true⟩ : SpanKey) ≠ ⟨t.tid, i, false⟩ := fun hh => hkey hh.symm
  have hbpe := trace_before_publish_eq p s t i hp hi
  have hblen : (_trace_before_publish p s).spans.length = s.spans.length + 1 := by
    rw [hbpe]
    simp
  have hpre := trace_prerun_eq p (_trace_before_publish p s) t i hp hi
  have hlen2 : (_trace_prerun p (_trace_before_publish p s)).spans.length =
      s.spans.length + 2 := by
    rw [hpre]
    simp [hblen]
  have hrun : (_trace_prerun p (_trace_before_publish p s)).spans[s.spans.length + 1]? =
      some (prerunSpan t) := by
    rw [hpre]
    have := List.getElem?_concat_length (_trace_before_publish p s).spans (prerunSpan t)
    rw [hblen] at this
    exact this
  have hpub : (_trace_prerun p (_trace_before_publish p s)).spans[s.spans.length]? =
      some (publishSpan p t i) := by
    rw [hpre]
    have h1 : (_trace_before_publish p s).spans[s.spans.length]? =
        some (publishSpan p t i) := by
      rw [hbpe]
      exact List.getElem?_concat_length _ _
    have h2 : s.spans.length < (_trace_before_publish p s).spans.length := by
      rw [hblen]
      exact Nat.lt_succ_self _
    rw [List.getElem?_append_left h2]
    exact h1
  have htabrun : tableLookup (_trace_prerun p (_trace_before_publish p s)).table
      ⟨t.tid, i, false⟩ = some (s.spans.length + 1) := by
    rw [hpre, hblen]
    exact tableLookup_tableSet_self _ _ _
  have htabpub : tableLookup (_trace_prerun p (_trace_before_publish p s)).table
      ⟨t.tid, i, true⟩ = some s.spans.length := by
    rw [hpre]
    rw [tableLookup_tableSet_ne _ _ _ _ hkey']
    rw [hbpe]
    exact tableLookup_tableSet_self _ _ _
  have hpost := trace_postrun_found_eq p (_trace_prerun p (_trace_before_publish p s))
    t i (s.spans.length + 1) hp hi htabrun
  have hidxlog : s.spans.length + 1 <
      (logMsg (_trace_prerun p (_trace_before_publish p s))
        ("postrun signal task_id=" ++ i)).spans.length := by
    simp [logMsg, hlen2]
  constructor
  · rw [hpost]
    have hsp : ({ updateSpan (logMsg (_trace_prerun p (_trace_before_publish p s))
        ("postrun signal task_id=" ++ i)) (s.spans.length + 1) (postrunUpdate p t) with
        table := tableErase (_trace_prerun p (_trace_before_publish p s)).table
          ⟨t.tid, i, false⟩ } : TraceState).spans[s.spans.length]? =
        (logMsg (_trace_prerun p (_trace_before_publish p s))
          ("postrun signal task_id=" ++ i)).spans[s.spans.length]? :=
      updateSpan_getElem_ne _ _ _ _ (Nat.ne_of_lt (Nat.lt_succ_self _))
    rw [hsp]
    have hsp2 : (logMsg (_trace_prerun p (_trace_before_publish p s))
        ("postrun signal task_id=" ++ i)).spans[s.spans.length]? =
        some (publishSpan p t i) := hpub
    rw [hsp2]
    simp [publishSpan]
  constructor
  · rw [hpost]
    have hsp : ({ updateSpan (logMsg (_trace_prerun p (_trace_before_publish p s))
        ("postrun signal task_id=" ++ i)) (s.spans.length + 1) (postrunUpdate p t) with
        table := tableErase (_trace_prerun p (_trace_before_publish p s)).table
          ⟨t.tid, i, false⟩ } : TraceState).spans[s.spans.length + 1]? =
        some (postrunUpdate p t ((logMsg (_trace_prerun p (_trace_before_publish p s))
          ("postrun signal task_id=" ++ i)).spans.getD (s.spans.length + 1) default)) :=
      updateSpan_getElem_self _ _ _ hidxlog
    rw [hsp]
    simp [postrunUpdate]
  constructor
  · rw [hpost]
    have hsp : ({ updateSpan (logMsg (_trace_prerun p (_trace_before_publish p s))
        ("postrun signal task_id=" ++ i)) (s.spans.length + 1) (postrunUpdate p t) with
        table := tableErase (_trace_prerun p (_trace_before_publish p s)).table
          ⟨t.tid, i, false⟩ } : TraceState).table =
        tableErase (_trace_prerun p (_trace_before_publish p s)).table
          ⟨t.tid, i, false⟩ := rfl
    rw [hsp, tableLookup_tableErase_ne _ _ _ hkey']
    exact htabpub
  have hafter := trace_after_publish_found_eq p
    (_trace_prerun p (_trace_before_publish p s)) t i s.spans.length hp hi htabpub
  have hbidx : s.spans.length < (_trace_prerun p (_trace_before_publish p s)).spans.length := by
    rw [hlen2]
    exact Nat.lt_of_lt_of_le (Nat.lt_succ_self _) (Nat.le_succ _)
  constructor
  · rw [hafter]
    show ((updateSpan (_trace_prerun p (_trace_before_publish p s)) (s.spans.length)
      (fun sp => { sp with ended := true })).spans[s.spans.length]?).map Span.ended =
      some true
    rw [updateSpan_getElem_self (_trace_prerun p (_trace_before_publish p s))
      (s.spans.length) (fun sp => { sp with ended := true }) hbidx]
    rfl
  constructor
  · rw [hafter]
    show ((updateSpan (_trace_prerun p (_trace_before_publish p s)) (s.spans.length)
      (fun sp => { sp with ended := true })).spans[s.spans.length + 1]?).map Span.ended =
      some false
    rw [updateSpan_getElem_ne (_trace_prerun p (_trace_before_publish p s))
      (s.spans.length) (fun sp => { sp with ended := true }) (s.spans.length + 1)
      (Nat.succ_ne_self _), hrun]
    rfl
  · rw [hafter]
    have hsp : ({ updateSpan (_trace_prerun p (_trace_before_publish p s))
        (s.spans.length) (fun sp => { sp with ended := true }) with
        table := tableErase (_trace_prerun p (_trace_before_publish p s)).table
          ⟨t.tid, i, true⟩ } : TraceState).table =
        tableErase (_trace_prerun p (_trace_before_publish p s)).table
          ⟨t.tid, i, true⟩ := rfl
    rw [hsp, tableLookup_tableErase_ne _ _ _ hkey]
    exact htabrun

/-- Witness for C9 at a concrete payload and the empty state. -/
theorem publish_and_run_spans_distinct_witness :
    ((_trace_postrun payloadFresh
      (_trace_prerun payloadFresh (_trace_before_publish payloadFresh stateEmpty))).spans[0]?).map
      Span.ended = some false :=
  (publish_and_run_spans_distinct payloadFresh stateEmpty taskW "id-2" rfl rfl).1

end Celery
